import Mathlib

/-!
Verification of the Marketplace backend (`main.py`, `schemas.py`).

The development shallowly embeds the query-construction logic of the three
listing endpoints (`/products`, `/services`, `/gigs`), the seeding workflow
(`/seed`), and the document-store interactions, and proves the specified
properties about them.

Conventions of the embedding:
- A Mongo filter dict built by the endpoints only ever carries the keys
  `category`, `curated`, `remote` and `$or`; it is embedded as the structure
  `MQuery` with one optional field per possible key.
- Python truthiness of an `Optional[str]` (`if q:`) is `strTruthy`:
  `None` and the empty string are falsy.
- The document store (`database.py`, absent from the sources) is modelled
  from the spec as three in-memory collections of flat documents.
-/

namespace Marketplace

/-- A Mongo regex condition `{"$regex": pattern, "$options": options}`. -/
structure Regex where
  pattern : String
  options : String
deriving DecidableEq, Repr

/-- The filter dict built by the listing endpoints.  The Python code only
ever stores the keys `category` (string equality), `curated` / `remote`
(boolean equality) and `$or` (a list of field/regex conditions), so the
dict is embedded as one optional field per key; `none` means the key is
absent from the dict. -/
structure MQuery where
  category : Option String
  curated : Option Bool
  remote : Option Bool
  orClause : Option (List (String × Regex))
deriving DecidableEq, Repr

/-- The empty filter dict `{}`. -/
def emptyMQuery : MQuery := ⟨none, none, none, none⟩

/-- Python truthiness of an `Optional[str]`: `None` and `""` are falsy. -/
def strTruthy : Option String → Bool
  | none => false
  | some s => !(s == "")

/-- The regex value `{"$regex": q, "$options": "i"}` used for text search. -/
def mkRegex (q : String) : Regex := ⟨q, "i"⟩

/-- The shared `$or` list: title, description, category, tags. -/
def baseOrConds (q : String) : List (String × Regex) :=
  [("title", mkRegex q), ("description", mkRegex q),
   ("category", mkRegex q), ("tags", mkRegex q)]

/-- `build_search_query(base, q)` from `main.py`: if `q` is truthy, set
`base["$or"]` to the four shared field conditions; otherwise return `base`
unchanged. -/
def build_search_query (base : MQuery) (q : Option String) : MQuery :=
  match q with
  | some s => if !(s == "") then { base with orClause := some (baseOrConds s) } else base
  | none => base

/-- `query.setdefault("$or", []).append/extend(conds)`: append `conds` to the
existing `$or` list, or to a fresh empty list when the key is absent. -/
def setdefaultOrExtend (query : MQuery) (conds : List (String × Regex)) : MQuery :=
  { query with orClause := some (query.orClause.getD [] ++ conds) }

/-- The equality-filter phase of `list_products` (lines 129–133 of
`main.py`): start from `{}`, add `category` if truthy, add `curated` if not
`None`. -/
def productsBase (category : Option String) (curated : Option Bool) : MQuery :=
  let query := emptyMQuery
  let query := if strTruthy category then { query with category := category } else query
  if curated.isSome then { query with curated := curated } else query

/-- The equality-filter phase of `list_services` (identical code to the
products one). -/
def servicesBase (category : Option String) (curated : Option Bool) : MQuery :=
  let query := emptyMQuery
  let query := if strTruthy category then { query with category := category } else query
  if curated.isSome then { query with curated := curated } else query

/-- The equality-filter phase of `list_gigs`: `category` if truthy,
`remote` if not `None`. -/
def gigsBase (category : Option String) (remote : Option Bool) : MQuery :=
  let query := emptyMQuery
  let query := if strTruthy category then { query with category := category } else query
  if remote.isSome then { query with remote := remote } else query

/-- The filter dict built by `list_products`: the equality filters, then
`build_search_query`. -/
def productsQuery (category : Option String) (curated : Option Bool)
    (q : Option String) : MQuery :=
  build_search_query (productsBase category curated) q

/-- The filter dict built by `list_services`: like products, then if `q` is
truthy, append a `provider` condition to the same `$or` list via
`setdefault`. -/
def servicesQuery (category : Option String) (curated : Option Bool)
    (q : Option String) : MQuery :=
  let query := build_search_query (servicesBase category curated) q
  match q with
  | some s =>
      if !(s == "") then setdefaultOrExtend query [("provider", mkRegex s)] else query
  | none => query

/-- The filter dict built by `list_gigs`: the equality filters,
`build_search_query`, then if `q` is truthy, extend the same `$or` list
with `company` and `location` conditions. -/
def gigsQuery (category : Option String) (remote : Option Bool)
    (q : Option String) : MQuery :=
  let query := build_search_query (gigsBase category remote) q
  match q with
  | some s =>
      if !(s == "") then
        setdefaultOrExtend query [("company", mkRegex s), ("location", mkRegex s)]
      else query
  | none => query

/-- A document value: string, number, boolean, list of strings, or null. -/
inductive DVal where
  | str (s : String)
  | num (r : Rat)
  | bool (b : Bool)
  | list (xs : List String)
  | null
deriving DecidableEq, Repr

/-- A flat document: an association list of field name to value (dict keys
are unique by construction). -/
abbrev Doc := List (String × DVal)

/-- `d.pop("_id", None)`: remove the `_id` key from a document (dict keys
are unique, so filtering is equivalent). -/
def popId (d : Doc) : Doc :=
  List.filter (fun kv => !(kv.1 == "_id")) d

/-- Look up a field of a document. -/
def fieldLookup (d : Doc) (k : String) : Option DVal :=
  (List.find? (fun kv => kv.1 == k) d).map (fun kv => kv.2)

/-- `listStarts n h`: the character list `n` starts the character list `h`. -/
def listStarts : List Char → List Char → Bool
  | [], _ => true
  | _ :: _, [] => false
  | a :: as, b :: bs => a == b && listStarts as bs

/-- `listHasSub n h`: `n` occurs as a contiguous run inside `h`. -/
def listHasSub (n : List Char) : List Char → Bool
  | [] => listStarts n []
  | b :: bs => listStarts n (b :: bs) || listHasSub n bs

/-- Modelled from the spec: case-insensitive substring matching, the
semantics the document store gives a `$regex` condition with option `i`
on a plain (non-metacharacter) pattern. -/
def strContainsCI (hay pat : String) : Bool :=
  listHasSub pat.toLower.toList hay.toLower.toList

/-- Modelled from the spec: a regex condition against one stored value;
on an array field the regex is matched against each element. -/
def regexMatchVal (r : Regex) (v : DVal) : Bool :=
  match v with
  | .str s => strContainsCI s r.pattern
  | .list xs => xs.any (fun s => strContainsCI s r.pattern)
  | _ => false

/-- One `$or` member `{field: regex}` against a document. -/
def condMatches (d : Doc) (c : String × Regex) : Bool :=
  match fieldLookup d c.1 with
  | some v => regexMatchVal c.2 v
  | none => false

/-- Modelled from the spec: the document store's evaluation of a filter
predicate on one document — every equality constraint holds and, when an
`$or` clause is present, at least one of its members matches. -/
def docMatches (query : MQuery) (d : Doc) : Bool :=
  (match query.category with
   | some c => fieldLookup d "category" == some (.str c)
   | none => true) &&
  (match query.curated with
   | some b => fieldLookup d "curated" == some (.bool b)
   | none => true) &&
  (match query.remote with
   | some b => fieldLookup d "remote" == some (.bool b)
   | none => true) &&
  (match query.orClause with
   | some conds => conds.any (condMatches d)
   | none => true)

/-- The three collections of the document store. -/
structure Store where
  product : List Doc
  service : List Doc
  gig : List Doc
deriving DecidableEq, Repr

/-- The store with all three collections empty. -/
def emptyStore : Store := ⟨[], [], []⟩

/-- The collection a name refers to. -/
def getColl (st : Store) : String → List Doc
  | "product" => st.product
  | "service" => st.service
  | "gig" => st.gig
  | _ => []

/-- Modelled from the spec: `get_documents(collection, query, limit)` from
the absent `database.py` — return the documents of the collection matching
the predicate, capped at `limit`, in the store's natural order. -/
def get_documents (st : Store) (coll : String) (query : MQuery) (limit : Nat) :
    List Doc :=
  (List.filter (docMatches query) (getColl st coll)).take limit

/-- A document as stored: the record's fields plus a store-assigned `_id`. -/
def docWithId (n : Nat) (d : Doc) : Doc := ("_id", DVal.str (toString n)) :: d

/-- Modelled from the spec: a successful insert appends the document, with a
store-assigned `_id`, to the named collection. -/
def storeInsert (coll : String) (d : Doc) (st : Store) : Store :=
  match coll with
  | "product" => { st with product := st.product ++ [docWithId st.product.length d] }
  | "service" => { st with service := st.service ++ [docWithId st.service.length d] }
  | "gig" => { st with gig := st.gig ++ [docWithId st.gig.length d] }
  | _ => st

/-- `list_products`: build the filter dict, query the store with a cap of
50, strip `_id` from every result. -/
def list_products (st : Store) (category : Option String) (curated : Option Bool)
    (q : Option String) : List Doc :=
  (get_documents st "product" (productsQuery category curated q) 50).map popId

/-- `list_services`: build the filter dict, query the store with a cap of
50, strip `_id` from every result. -/
def list_services (st : Store) (category : Option String) (curated : Option Bool)
    (q : Option String) : List Doc :=
  (get_documents st "service" (servicesQuery category curated q) 50).map popId

/-- `list_gigs`: build the filter dict, query the store with a cap of 50,
strip `_id` from every result. -/
def list_gigs (st : Store) (category : Option String) (remote : Option Bool)
    (q : Option String) : List Doc :=
  (get_documents st "gig" (gigsQuery category remote q) 50).map popId

/-- `Product` from `schemas.py` (prices are exact decimals, embedded as
rationals; image URLs as strings). -/
structure Product where
  title : String
  description : Option String := none
  price : Rat
  category : String
  image : Option String := none
  rating : Option Rat := some 4.5
  curated : Bool := true
  tags : List String := []
  in_stock : Bool := true
deriving DecidableEq, Repr

/-- `Service` from `schemas.py`. -/
structure Service where
  title : String
  description : Option String := none
  price : Rat
  category : String
  provider : Option String := none
  image : Option String := none
  rating : Option Rat := some 4.6
  curated : Bool := true
  tags : List String := []
deriving DecidableEq, Repr

/-- `Gig` from `schemas.py`. -/
structure Gig where
  title : String
  description : Option String := none
  pay : Rat
  pay_type : String := "fixed"
  category : String
  company : Option String := none
  location : Option String := none
  remote : Bool := true
  tags : List String := []
deriving DecidableEq, Repr

/-- An optional string field as a document value (`None` becomes null). -/
def optStr : Option String → DVal
  | some s => .str s
  | none => .null

/-- An optional numeric field as a document value. -/
def optNum : Option Rat → DVal
  | some r => .num r
  | none => .null

/-- A product as the flat document handed to the store. -/
def productToDoc (p : Product) : Doc :=
  [("title", .str p.title), ("description", optStr p.description),
   ("price", .num p.price), ("category", .str p.category),
   ("image", optStr p.image), ("rating", optNum p.rating),
   ("curated", .bool p.curated), ("tags", .list p.tags),
   ("in_stock", .bool p.in_stock)]

/-- A service as the flat document handed to the store. -/
def serviceToDoc (s : Service) : Doc :=
  [("title", .str s.title), ("description", optStr s.description),
   ("price", .num s.price), ("category", .str s.category),
   ("provider", optStr s.provider), ("image", optStr s.image),
   ("rating", optNum s.rating), ("curated", .bool s.curated),
   ("tags", .list s.tags)]

/-- A gig as the flat document handed to the store. -/
def gigToDoc (g : Gig) : Doc :=
  [("title", .str g.title), ("description", optStr g.description),
   ("pay", .num g.pay), ("pay_type", .str g.pay_type),
   ("category", .str g.category), ("company", optStr g.company),
   ("location", optStr g.location), ("remote", .bool g.remote),
   ("tags", .list g.tags)]

/-- The curated example products of `seed_data`. -/
def seedProducts : List Product :=
  [{ title := "Minimalist Desk Lamp", description := some "Warm LED lamp with matte finish",
     price := 59, category := "Home",
     image := some "https://images.unsplash.com/photo-1507473885765-e6ed057f782c",
     tags := ["lighting", "desk"], curated := true },
   { title := "Ergonomic Chair", description := some "Breathable mesh back",
     price := 199, category := "Office",
     image := some "https://images.unsplash.com/photo-1503602642458-232111445657",
     tags := ["chair", "office"], curated := true },
   { title := "Stoneware Mug", description := some "Hand‑thrown, dishwasher safe",
     price := 24, category := "Kitchen",
     image := some "https://images.unsplash.com/photo-1514432324607-a09d9b4aefdd",
     tags := ["mug", "ceramic"], curated := true }]

/-- The curated example services of `seed_data`. -/
def seedServices : List Service :=
  [{ title := "Brand Design Sprint", description := some "1-week intensive brand refresh",
     price := 1200, category := "Design", provider := some "Top Studio",
     image := some "https://images.unsplash.com/photo-1526948128573-703ee1aeb6fa",
     tags := ["branding", "design"], curated := true },
   { title := "Landing Page Build", description := some "High-converting responsive page",
     price := 800, category := "Development", provider := some "Web Pro",
     image := some "https://images.unsplash.com/photo-1498050108023-c5249f4df085",
     tags := ["web", "react"], curated := true },
   { title := "Product Photography Pack", description := some "15 retouched shots",
     price := 450, category := "Photography", provider := some "Studio Light",
     image := some "https://images.unsplash.com/photo-1487412720507-e7ab37603c6f",
     tags := ["photo", "ecommerce"], curated := true }]

/-- The curated example gigs of `seed_data`. -/
def seedGigs : List Gig :=
  [{ title := "Event Photographer", description := some "4-hour evening shoot",
     pay := 350, pay_type := "fixed", category := "Photography",
     company := some "Local Events", location := some "On-site", remote := false,
     tags := ["photo", "event"] },
   { title := "Figma to React", description := some "Convert 5 screens",
     pay := 45, pay_type := "hourly", category := "Development",
     company := some "Startup X", remote := true, tags := ["react", "frontend"] },
   { title := "Shopify Setup Assistant", description := some "Configure theme and payments",
     pay := 30, pay_type := "hourly", category := "Ecommerce",
     company := some "Indie Brand", remote := true, tags := ["shopify", "store"] }]

/-- The nine insertions `seed_data` performs, in program order: the three
products, then the three services, then the three gigs. -/
def seedPairs : List (String × Doc) :=
  seedProducts.map (fun p => ("product", productToDoc p)) ++
  seedServices.map (fun s => ("service", serviceToDoc s)) ++
  seedGigs.map (fun g => ("gig", gigToDoc g))

/-- The outcome of the seed endpoint: the skip summary, the completion
summary `{"inserted": {"products": _, "services": _, "gigs": _}}`, or an
HTTP error (status code and detail). -/
inductive SeedResult where
  | skipped (reason : String) (counts : Nat × Nat × Nat)
  | ok (inserted : Nat × Nat × Nat)
  | error (status : Nat) (detail : String)
deriving DecidableEq, Repr

/-- Bump the per-collection inserted counter. -/
def bumpCount (coll : String) (c : Nat × Nat × Nat) : Nat × Nat × Nat :=
  match coll with
  | "product" => (c.1 + 1, c.2.1, c.2.2)
  | "service" => (c.1, c.2.1 + 1, c.2.2)
  | "gig" => (c.1, c.2.1, c.2.2 + 1)
  | _ => c

/-- The insertion loops of `seed_data`, run under the `try`.  `fail` is the
failure oracle for the store (modelled from the spec: any store-level error
during an insert aborts the whole operation; the attempts are numbered in
program order).  Returns the store after the successful inserts, the
per-collection counters, and the exception message if an insert threw. -/
def runInserts (fail : Nat → Bool) (attempt : Nat) (pairs : List (String × Doc))
    (st : Store) (ins : Nat × Nat × Nat) : Store × (Nat × Nat × Nat) × Option String :=
  match pairs with
  | [] => (st, ins, none)
  | (coll, d) :: rest =>
    if fail attempt then (st, ins, some "insert error")
    else runInserts fail (attempt + 1) rest (storeInsert coll d st) (bumpCount coll ins)

/-- The store after performing a list of insertions in order. -/
def applyPairs (pairs : List (String × Doc)) (st : Store) : Store :=
  match pairs with
  | [] => st
  | (coll, d) :: rest => applyPairs rest (storeInsert coll d st)

/-- `seed_data` from `main.py`: count the three collections; if not forced
and any count is positive, skip reporting the counts; otherwise insert the
nine curated records, converting any insert failure into a 500 error (no
rollback of prior inserts). -/
def seed_data (fail : Nat → Bool) (force : Bool) (st : Store) : SeedResult × Store :=
  let counts := (st.product.length, st.service.length, st.gig.length)
  if !force && (decide (0 < counts.1) || decide (0 < counts.2.1) || decide (0 < counts.2.2)) then
    (.skipped "Collections already contain data" counts, st)
  else
    let r := runInserts fail 0 seedPairs st (0, 0, 0)
    match r.2.2 with
    | some msg => (.error 500 ("Seeding failed: " ++ msg), r.1)
    | none => (.ok r.2.1, r.1)

/-- A store whose product collection holds one document; used to exercise
the seed skip path. -/
def oneProductStore : Store := ⟨[[("title", DVal.str "x")]], [], []⟩

/-!  Lemmas about the query builders. -/

lemma build_search_query_none (base : MQuery) : build_search_query base none = base := rfl

lemma build_search_query_some (base : MQuery) (q : String) (h : q ≠ "") :
    build_search_query base (some q) = { base with orClause := some (baseOrConds q) } := by
  simp [build_search_query, h]

lemma build_search_query_empty (base : MQuery) :
    build_search_query base (some "") = base := by
  simp [build_search_query]

lemma productsBase_curated (c : Option String) (cu : Option Bool) :
    (productsBase c cu).curated = cu := by
  cases cu <;> simp [productsBase, emptyMQuery, apply_ite]

lemma productsBase_orClause (c : Option String) (cu : Option Bool) :
    (productsBase c cu).orClause = none := by
  cases cu <;> simp [productsBase, emptyMQuery, apply_ite]

lemma servicesBase_eq (c : Option String) (cu : Option Bool) :
    servicesBase c cu = productsBase c cu := rfl

lemma gigsBase_remote (c : Option String) (re : Option Bool) :
    (gigsBase c re).remote = re := by
  cases re <;> simp [gigsBase, emptyMQuery, apply_ite]

lemma gigsBase_orClause (c : Option String) (re : Option Bool) :
    (gigsBase c re).orClause = none := by
  cases re <;> simp [gigsBase, emptyMQuery, apply_ite]

lemma servicesQuery_some (c : Option String) (cu : Option Bool) (q : String) (h : q ≠ "") :
    servicesQuery c cu (some q) =
      { servicesBase c cu with
          orClause := some (baseOrConds q ++ [("provider", mkRegex q)]) } := by
  simp [servicesQuery, build_search_query_some _ _ h, setdefaultOrExtend, h]

lemma gigsQuery_some (c : Option String) (re : Option Bool) (q : String) (h : q ≠ "") :
    gigsQuery c re (some q) =
      { gigsBase c re with
          orClause := some (baseOrConds q ++
            [("company", mkRegex q), ("location", mkRegex q)]) } := by
  simp [gigsQuery, build_search_query_some _ _ h, setdefaultOrExtend, h]

lemma productsBase_eq (c : Option String) (cu : Option Bool) (hc : c ≠ some "") :
    productsBase c cu = { category := c, curated := cu, remote := none, orClause := none } := by
  cases c with
  | none => cases cu <;> simp [productsBase, emptyMQuery, strTruthy]
  | some s =>
    have hs : s ≠ "" := fun h => hc (by rw [h])
    cases cu <;> simp [productsBase, emptyMQuery, strTruthy, hs]

lemma gigsBase_eq (c : Option String) (re : Option Bool) (hc : c ≠ some "") :
    gigsBase c re = { category := c, curated := none, remote := re, orClause := none } := by
  cases c with
  | none => cases re <;> simp [gigsBase, emptyMQuery, strTruthy]
  | some s =>
    have hs : s ≠ "" := fun h => hc (by rw [h])
    cases re <;> simp [gigsBase, emptyMQuery, strTruthy, hs]

lemma build_search_query_curated (base : MQuery) (q : Option String) :
    (build_search_query base q).curated = base.curated := by
  cases q <;> simp [build_search_query, apply_ite]

lemma build_search_query_remote (base : MQuery) (q : Option String) :
    (build_search_query base q).remote = base.remote := by
  cases q <;> simp [build_search_query, apply_ite]

lemma productsQuery_curated (c : Option String) (cu : Option Bool) (q : Option String) :
    (productsQuery c cu q).curated = cu := by
  rw [productsQuery, build_search_query_curated, productsBase_curated]

lemma servicesQuery_curated (c : Option String) (cu : Option Bool) (q : Option String) :
    (servicesQuery c cu q).curated = cu := by
  cases q <;>
    simp [servicesQuery, setdefaultOrExtend, apply_ite, build_search_query_curated,
      servicesBase_eq, productsBase_curated]

lemma gigsQuery_remote (c : Option String) (re : Option Bool) (q : Option String) :
    (gigsQuery c re q).remote = re := by
  cases q <;>
    simp [gigsQuery, setdefaultOrExtend, apply_ite, build_search_query_remote,
      gigsBase_remote]

lemma productsBase_empty_cat (cu : Option Bool) :
    productsBase (some "") cu = productsBase none cu := by
  simp [productsBase, strTruthy]

lemma gigsBase_empty_cat (re : Option Bool) :
    gigsBase (some "") re = gigsBase none re := by
  simp [gigsBase, strTruthy]

/-!  Lemmas about the seeder. -/

lemma runInserts_all_ok (fail : Nat → Bool) (hfail : ∀ n, fail n = false)
    (pairs : List (String × Doc)) (a : Nat) (st : Store) (ins : Nat × Nat × Nat) :
    runInserts fail a pairs st ins =
      (applyPairs pairs st, List.foldl (fun c p => bumpCount p.1 c) ins pairs, none) := by
  induction pairs generalizing a st ins with
  | nil => simp [runInserts, applyPairs]
  | cons p rest ih =>
    obtain ⟨coll, d⟩ := p
    rw [runInserts]
    simp [hfail, applyPairs, ih]

lemma runInserts_first_fail (fail : Nat → Bool) (pairs : List (String × Doc))
    (a k : Nat) (st : Store) (ins : Nat × Nat × Nat)
    (hk : k < pairs.length)
    (hfirst : ∀ j, j < k → fail (a + j) = false)
    (hf : fail (a + k) = true) :
    (runInserts fail a pairs st ins).1 = applyPairs (pairs.take k) st ∧
    (runInserts fail a pairs st ins).2.2 = some "insert error" := by
  induction pairs generalizing a k st ins with
  | nil => simp at hk
  | cons p rest ih =>
    obtain ⟨coll, d⟩ := p
    match k with
    | 0 =>
      have h0 : fail a = true := by simpa using hf
      rw [runInserts]
      simp [h0, applyPairs]
    | k + 1 =>
      have h0 : fail a = false := by simpa using hfirst 0 (Nat.succ_pos k)
      have hrec := ih (a + 1) k (storeInsert coll d st) (bumpCount coll ins)
        (by simpa using Nat.lt_of_succ_lt_succ hk)
        (fun j hj => by
          have := hfirst (j + 1) (Nat.succ_lt_succ hj)
          rwa [show a + 1 + j = a + (j + 1) by omega])
        (by rwa [show a + 1 + k = a + (k + 1) by omega])
      rw [runInserts]
      simpa [h0, applyPairs] using hrec

lemma popId_no_id (d : Doc) (kv : String × DVal) (hkv : kv ∈ popId d) :
    (!(kv.1 == "_id")) = true :=
  (List.mem_filter.mp hkv).2

/-- Claim C1, counterexample: the claim says an empty-string `q` still
produces an OR clause exactly as a non-empty `q` does; but on every listing
endpoint the predicate built for `q = ""` has no `$or` key at all, while a
non-empty `q` does produce one — `if q:` is false for the empty string. -/
theorem c1_empty_q_or_clause_cex :
    (productsQuery none none (some "")).orClause = none ∧
    (servicesQuery none none (some "")).orClause = none ∧
    (gigsQuery none none (some "")).orClause = none ∧
    (productsQuery none none (some "x")).orClause ≠ none := by decide

/-- Claim C1, amended: for every listing endpoint, supplying `q` as the
empty string adds no OR text-search clause; the built predicate is
identical to the one built when `q` is absent. -/
theorem c1_empty_q_no_or_clause (category : Option String) (curated remote : Option Bool) :
    productsQuery category curated (some "") = productsQuery category curated none ∧
    servicesQuery category curated (some "") = servicesQuery category curated none ∧
    gigsQuery category remote (some "") = gigsQuery category remote none ∧
    (productsQuery category curated (some "")).orClause = none ∧
    (servicesQuery category curated (some "")).orClause = none ∧
    (gigsQuery category remote (some "")).orClause = none := by
  refine ⟨?_, ?_, ?_, ?_, ?_, ?_⟩ <;>
    simp [productsQuery, servicesQuery, gigsQuery, build_search_query_empty,
      build_search_query_none, productsBase_orClause, gigsBase_orClause, servicesBase_eq]

/-- Claim C2: for every non-empty `q`, each entity's predicate is the
equality-filter predicate (built with no `q`) plus a single `$or` list
whose members are exactly title/description/category/tags for products,
those four plus provider for services, and those four plus company and
location for gigs — the entity-specific fields are appended to the same
OR list. -/
theorem c2_or_clause_members (category : Option String) (curated remote : Option Bool)
    (q : String) (h : q ≠ "") :
    productsQuery category curated (some q) =
      { productsQuery category curated none with orClause := some (baseOrConds q) } ∧
    servicesQuery category curated (some q) =
      { servicesQuery category curated none with
          orClause := some (baseOrConds q ++ [("provider", mkRegex q)]) } ∧
    gigsQuery category remote (some q) =
      { gigsQuery category remote none with
          orClause := some (baseOrConds q ++
            [("company", mkRegex q), ("location", mkRegex q)]) } := by
  refine ⟨?_, ?_, ?_⟩
  · simp [productsQuery, build_search_query_some _ _ h, build_search_query_none]
  · rw [servicesQuery_some _ _ _ h]
    simp [servicesQuery, build_search_query_none]
  · rw [gigsQuery_some _ _ _ h]
    simp [gigsQuery, build_search_query_none]

/-- Witness for C2 at `q = "lamp"`. -/
theorem c2_or_clause_members_witness :
    productsQuery (some "Home") (some true) (some "lamp") =
      { productsQuery (some "Home") (some true) none with
          orClause := some (baseOrConds "lamp") } ∧
    servicesQuery (some "Home") (some true) (some "lamp") =
      { servicesQuery (some "Home") (some true) none with
          orClause := some (baseOrConds "lamp" ++ [("provider", mkRegex "lamp")]) } ∧
    gigsQuery (some "Home") (some false) (some "lamp") =
      { gigsQuery (some "Home") (some false) none with
          orClause := some (baseOrConds "lamp" ++
            [("company", mkRegex "lamp"), ("location", mkRegex "lamp")]) } :=
  c2_or_clause_members (some "Home") (some true) (some false) "lamp" (by decide)

/-- Claim C3: with `q` absent, each endpoint's predicate holds exactly the
supplied equality constraints (category as a non-empty string, and the
curated or remote flag) and no OR clause; with nothing supplied it is the
empty, match-everything predicate. -/
theorem c3_no_q_equality_only (category : Option String) (curated remote : Option Bool)
    (hcat : category ≠ some "") :
    productsQuery category curated none =
      { category := category, curated := curated, remote := none, orClause := none } ∧
    servicesQuery category curated none =
      { category := category, curated := curated, remote := none, orClause := none } ∧
    gigsQuery category remote none =
      { category := category, curated := none, remote := remote, orClause := none } ∧
    productsQuery none none none = emptyMQuery := by
  refine ⟨?_, ?_, ?_, ?_⟩
  · rw [productsQuery, build_search_query_none, productsBase_eq _ _ hcat]
  · show servicesBase category curated = _
    rw [servicesBase_eq, productsBase_eq _ _ hcat]
  · show gigsBase category remote = _
    rw [gigsBase_eq _ _ hcat]
  · rfl

/-- Witness for C3 at category "Office", curated true, remote false. -/
theorem c3_no_q_equality_only_witness :
    productsQuery (some "Office") (some true) none =
      { category := some "Office", curated := some true, remote := none,
        orClause := none } ∧
    servicesQuery (some "Office") (some true) none =
      { category := some "Office", curated := some true, remote := none,
        orClause := none } ∧
    gigsQuery (some "Office") (some false) none =
      { category := some "Office", curated := none, remote := some false,
        orClause := none } ∧
    productsQuery none none none = emptyMQuery :=
  c3_no_q_equality_only (some "Office") (some true) (some false) (by decide)

/-- Claim C4: supplying `curated = false` (products, services) or
`remote = false` (gigs) binds that field to `false` in the predicate, and
the predicate differs from the one built when the parameter is absent. -/
theorem c4_false_flag_filters (category : Option String) (q : Option String) :
    (productsQuery category (some false) q).curated = some false ∧
    productsQuery category (some false) q ≠ productsQuery category none q ∧
    (servicesQuery category (some false) q).curated = some false ∧
    servicesQuery category (some false) q ≠ servicesQuery category none q ∧
    (gigsQuery category (some false) q).remote = some false ∧
    gigsQuery category (some false) q ≠ gigsQuery category none q := by
  refine ⟨productsQuery_curated _ _ _, ?_, servicesQuery_curated _ _ _, ?_,
    gigsQuery_remote _ _ _, ?_⟩
  · intro hEq
    have h2 := congrArg MQuery.curated hEq
    rw [productsQuery_curated, productsQuery_curated] at h2
    exact Option.noConfusion h2
  · intro hEq
    have h2 := congrArg MQuery.curated hEq
    rw [servicesQuery_curated, servicesQuery_curated] at h2
    exact Option.noConfusion h2
  · intro hEq
    have h2 := congrArg MQuery.remote hEq
    rw [gigsQuery_remote, gigsQuery_remote] at h2
    exact Option.noConfusion h2

/-- Claim C5: with `force = false` and at least one non-empty collection,
the seeder returns the skip summary with all three observed counts and
leaves the store exactly as it was — no insertion into any collection. -/
theorem c5_seed_skip_no_writes (fail : Nat → Bool) (st : Store)
    (h : 0 < st.product.length ∨ 0 < st.service.length ∨ 0 < st.gig.length) :
    seed_data fail false st =
      (.skipped "Collections already contain data"
        (st.product.length, st.service.length, st.gig.length), st) := by
  have hb : (decide (0 < st.product.length) || decide (0 < st.service.length) ||
      decide (0 < st.gig.length)) = true := by
    rcases h with h | h | h <;> simp [h]
  simp [seed_data, hb]

/-- Witness for C5 at a store holding one product. -/
theorem c5_seed_skip_no_writes_witness :
    seed_data (fun _ => false) false oneProductStore =
      (.skipped "Collections already contain data" (1, 0, 0), oneProductStore) :=
  c5_seed_skip_no_writes (fun _ => false) oneProductStore (Or.inl (by decide))

/-- Claim C6: when all three collections are empty (with `force = false`)
or `force = true`, and no insert fails, the seeder reports inserted counts
of exactly 3 products, 3 services and 3 gigs, and each collection grows by
exactly 3 documents. -/
theorem c6_seed_inserts_three_each (fail : Nat → Bool) (force : Bool) (st : Store)
    (hfail : ∀ n, fail n = false)
    (h : force = true ∨ (st.product = [] ∧ st.service = [] ∧ st.gig = [])) :
    (seed_data fail force st).1 = .ok (3, 3, 3) ∧
    (seed_data fail force st).2.product.length = st.product.length + 3 ∧
    (seed_data fail force st).2.service.length = st.service.length + 3 ∧
    (seed_data fail force st).2.gig.length = st.gig.length + 3 := by
  have hskip : (!force && (decide (0 < st.product.length) ||
      decide (0 < st.service.length) || decide (0 < st.gig.length))) = false := by
    rcases h with h | ⟨h1, h2, h3⟩
    · simp [h]
    · simp [h1, h2, h3]
  rw [seed_data]
  simp only [hskip, Bool.false_eq_true, if_false,
    runInserts_all_ok fail hfail seedPairs 0 st (0, 0, 0)]
  refine ⟨?_, ?_, ?_, ?_⟩ <;>
    simp [seedPairs, seedProducts, seedServices, seedGigs, bumpCount, applyPairs, storeInsert]

/-- Witness for C6 at the empty store with no failures. -/
theorem c6_seed_inserts_three_each_witness :
    (seed_data (fun _ => false) false emptyStore).1 = .ok (3, 3, 3) ∧
    (seed_data (fun _ => false) false emptyStore).2.product.length =
      emptyStore.product.length + 3 ∧
    (seed_data (fun _ => false) false emptyStore).2.service.length =
      emptyStore.service.length + 3 ∧
    (seed_data (fun _ => false) false emptyStore).2.gig.length =
      emptyStore.gig.length + 3 :=
  c6_seed_inserts_three_each (fun _ => false) false emptyStore (fun _ => rfl)
    (Or.inr ⟨rfl, rfl, rfl⟩)

/-- Claim C7: if the (k+1)-th insertion is the first to fail, the seed
operation reports a 500 server error and the store holds exactly the
records inserted before the failing one — no rollback, no retry. -/
theorem c7_partial_seed_failure (fail : Nat → Bool) (st : Store) (k : Nat) (hk : k < 9)
    (hfirst : ∀ j, j < k → fail j = false) (hf : fail k = true) :
    (seed_data fail true st).1 = .error 500 "Seeding failed: insert error" ∧
    (seed_data fail true st).2 = applyPairs (seedPairs.take k) st := by
  have hlen : k < seedPairs.length := by
    simp [seedPairs, seedProducts, seedServices, seedGigs]
    omega
  have h := runInserts_first_fail fail seedPairs 0 k st (0, 0, 0) hlen
    (fun j hj => by simpa using hfirst j hj) (by simpa using hf)
  rw [seed_data]
  simp only [Bool.not_true, Bool.false_and, Bool.false_eq_true, if_false]
  rw [h.2]
  exact ⟨rfl, h.1⟩

/-- Witness for C7: the fifth insertion (the second service) fails; the
three products and the first service remain. -/
theorem c7_partial_seed_failure_witness :
    (seed_data (fun n => n == 4) true emptyStore).1 =
      .error 500 "Seeding failed: insert error" ∧
    (seed_data (fun n => n == 4) true emptyStore).2 =
      applyPairs (seedPairs.take 4) emptyStore :=
  c7_partial_seed_failure (fun n => n == 4) emptyStore 4 (by decide) (by decide) (by decide)

/-- Claim C8: every document returned by any of the three listing
endpoints, for every query, has the store-assigned `_id` field removed:
no key of any returned document is `_id`. -/
theorem c8_id_stripped (st : Store) (category : Option String) (curated remote : Option Bool)
    (q : Option String) :
    ((list_products st category curated q).all fun d =>
      d.all fun kv => !(kv.1 == "_id")) = true ∧
    ((list_services st category curated q).all fun d =>
      d.all fun kv => !(kv.1 == "_id")) = true ∧
    ((list_gigs st category remote q).all fun d =>
      d.all fun kv => !(kv.1 == "_id")) = true := by
  refine ⟨?_, ?_, ?_⟩ <;>
  · simp only [list_products, list_services, list_gigs, List.all_eq_true, List.mem_map]
    rintro d ⟨d0, hmem, rfl⟩ kv hkv
    exact popId_no_id d0 kv hkv

/-- Claim C9: every listing endpoint queries the store with a fixed cap of
50, so the returned list has at most 50 records whatever the store holds. -/
theorem c9_limit_50 (st : Store) (category : Option String) (curated remote : Option Bool)
    (q : Option String) :
    (list_products st category curated q).length ≤ 50 ∧
    (list_services st category curated q).length ≤ 50 ∧
    (list_gigs st category remote q).length ≤ 50 := by
  refine ⟨?_, ?_, ?_⟩ <;>
    · simp only [list_products, list_services, list_gigs, get_documents,
        List.length_map, List.length_take]
      omega

/-- Claim C10: supplying `category` as the empty string adds no equality
constraint — the predicate each endpoint builds equals the one built with
`category` absent (the code tests category for truthiness, unlike
curated/remote which are tested against None). -/
theorem c10_empty_category_ignored (curated remote : Option Bool) (q : Option String) :
    productsQuery (some "") curated q = productsQuery none curated q ∧
    servicesQuery (some "") curated q = servicesQuery none curated q ∧
    gigsQuery (some "") remote q = gigsQuery none remote q := by
  refine ⟨?_, ?_, ?_⟩
  · rw [productsQuery, productsQuery, productsBase_empty_cat]
  · rw [servicesQuery.eq_def, servicesQuery.eq_def, servicesBase_eq, servicesBase_eq,
      productsBase_empty_cat]
  · rw [gigsQuery.eq_def, gigsQuery.eq_def, gigsBase_empty_cat]

end Marketplace
